import Mathlib

/-!
Verification of the skin-trader subscription/payment lifecycle engine.

This file shallowly embeds the parts of the repository that the claims are
about:

* the PayMe webhook service (`src/services/paymeService.js`):
  `verifyWebhookSignature`, `handleWebhook` and the five JSON-RPC methods
  `CheckPerformTransaction`, `CreateTransaction`, `PerformTransaction`,
  `CancelTransaction`, `CheckTransaction`;
* the webhook controller (`handlePaymeWebhook`) and the activation side
  effect (`activateSubscriptionFromTransaction`);
* the subscription cleanup scheduler (`expireSubscriptions`,
  `expireGracePeriods`, `runCleanup`);
* the subscription access gate (`requireActiveSubscription`);
* payment initiation (`initiateSubscription`).

Modelling conventions: Mongo documents become Lean structures holding the
fields the lifecycle code reads or writes (write-only audit metadata such
as ipAddress/userAgent and mongoose `__v` bookkeeping are omitted); the
database becomes an explicit `Store` of lists; `findById`/`findOne`
become `List.find?`; `document.save()` becomes an in-place replacement
keyed on the document id; `Date.now()` and mongoose `updatedAt`
timestamping become an explicit `now : Int` (milliseconds) threaded
through every mutating operation; thrown JS errors become `Except` with
the source's message strings.  HMAC-SHA256 is an opaque library call in
the source (`crypto.createHmac`), so it is a function parameter here.
-/

namespace SkinTrader

/-- Transaction statuses, from `TRANSACTION_STATUS` in `src/utils/constants.js`. -/
inductive TxStatus where
  | pending
  | processing
  | completed
  | failed
  | cancelled
  | refunded
deriving DecidableEq, Repr

/-- Subscription / entitlement-snapshot statuses, from `SUBSCRIPTION_STATUS` in
`src/utils/constants.js`. -/
inductive SubStatus where
  | noSubscription
  | active
  | expired
  | gracePeriod
  | pending
  | cancelled
deriving DecidableEq, Repr

/-- Currencies, from `CURRENCIES` in `src/utils/constants.js`. -/
inductive Currency where
  | UZS
  | USD
deriving DecidableEq, Repr

/-- A Transaction document (`src/models/Transaction.js`): the fields read or
written by the payment lifecycle.  Times are milliseconds since epoch;
`updatedAt` is the mongoose timestamp refreshed on every save. -/
structure Txn where
  tid : Nat
  userId : Nat
  subscriptionId : Option Nat
  paymeTransactionId : Option String
  amount : Int
  currency : Currency
  status : TxStatus
  webhookReceived : Bool
  webhookReceivedAt : Option Int
  errorMessage : Option String
  errorCode : Option String
  createdAt : Int
  updatedAt : Int
deriving DecidableEq, Repr

/-- A Subscription document (`src/models/Subscription.js`): the fields the
lifecycle engine touches. -/
structure Subscr where
  sid : Nat
  userId : Nat
  status : SubStatus
  startDate : Int
  endDate : Int
  autoRenew : Bool
  lastPaymentId : Option Nat
  gracePeriodStarted : Option Int
deriving DecidableEq, Repr

/-- The entitlement part of a User document (`src/models/User.js`):
the denormalized subscription snapshot plus the KYC status the middleware
consults. -/
structure UserDoc where
  uid : Nat
  kycVerified : Bool
  subscriptionStatus : SubStatus
  currentSubscriptionId : Option Nat
  subscriptionExpiresAt : Option Int
  gracePeriodEndsAt : Option Int
deriving DecidableEq, Repr

/-- The persistent state the lifecycle engine reads and writes: the three
Mongo collections, plus counters standing for Mongo's fresh ObjectId
generation. -/
structure Store where
  transactions : List Txn
  subscriptions : List Subscr
  users : List UserDoc
  nextTxnId : Nat
  nextSubId : Nat
deriving DecidableEq, Repr

/-! ### Generic collection access

`findBy key l k` models `Model.findOne({key: k})` / `Model.findById(k)`:
the first document whose key matches.  `saveBy key l a` models
`document.save()`: the stored document with `a`'s id is replaced by `a`. -/

/-- First element of `l` whose `key` equals `k` (models `findOne`). -/
def findBy {α κ : Type} [DecidableEq κ] (key : α → κ) (l : List α) (k : κ) : Option α :=
  l.find? (fun x => decide (key x = k))

/-- Replace every element of `l` carrying `a`'s key by `a` (models `save`).
Keys are unique in a real collection, so at most one element changes. -/
def saveBy {α κ : Type} [DecidableEq κ] (key : α → κ) (l : List α) (a : α) : List α :=
  l.map (fun x => if key x = key a then a else x)

theorem findBy_mem {α κ : Type} [DecidableEq κ] {key : α → κ} {l : List α} {k : κ} {x : α}
    (h : findBy key l k = some x) : x ∈ l ∧ key x = k := by
  refine ⟨List.mem_of_find?_eq_some h, ?_⟩
  have := List.find?_some h
  simpa using this

theorem saveBy_map_key {α κ : Type} [DecidableEq κ] (key : α → κ) (l : List α) (a : α) :
    (saveBy key l a).map key = l.map key := by
  induction l with
  | nil => rfl
  | cons x xs ih =>
    simp only [saveBy, List.map_cons] at ih ⊢
    by_cases h : key x = key a
    · simp [h, ih]
    · simp [h, ih]

theorem findBy_saveBy_other {α κ : Type} [DecidableEq κ] (key : α → κ) (l : List α) (a : α)
    {k : κ} (hk : k ≠ key a) : findBy key (saveBy key l a) k = findBy key l k := by
  induction l with
  | nil => rfl
  | cons x xs ih =>
    simp only [saveBy, findBy, List.map_cons, List.find?] at ih ⊢
    by_cases h : key x = key a
    · simp only [if_pos h]
      have h1 : (decide (key a = k)) = false := by
        refine decide_eq_false ?_
        intro he
        exact hk he.symm
      have h2 : (decide (key x = k)) = false := by
        rw [h]
        exact h1
      rw [h1, h2]
      exact ih
    · simp only [if_neg h]
      by_cases h3 : key x = k
      · simp [h3]
      · simp only [decide_eq_false h3]
        exact ih

theorem findBy_saveBy_same {α κ : Type} [DecidableEq κ] (key : α → κ) (l : List α) (a : α)
    (h : ∃ x ∈ l, key x = key a) : findBy key (saveBy key l a) (key a) = some a := by
  induction l with
  | nil => simp at h
  | cons x xs ih =>
    simp only [saveBy, findBy, List.map_cons, List.find?] at ih ⊢
    by_cases hx : key x = key a
    · simp [hx]
    · simp only [if_neg hx, decide_eq_false hx]
      rcases h with ⟨y, hy, hky⟩
      rcases List.mem_cons.mp hy with rfl | hmem
      · exact absurd hky hx
      · exact ih ⟨y, hmem, hky⟩

theorem findBy_of_mem_nodup {α κ : Type} [DecidableEq κ] {key : α → κ} {l : List α} {a : α}
    (hnd : (l.map key).Nodup) (ha : a ∈ l) : findBy key l (key a) = some a := by
  induction l with
  | nil => simp at ha
  | cons x xs ih =>
    simp only [List.map_cons, List.nodup_cons] at hnd
    rcases List.mem_cons.mp ha with rfl | hmem
    · simp [findBy, List.find?]
    · have hx : key x ≠ key a := by
        intro he
        exact hnd.1 (he ▸ List.mem_map_of_mem key hmem)
      simp only [findBy, List.find?, decide_eq_false hx]
      exact ih hnd.2 hmem

/-! ### Store access, specialised to the three collections -/

/-- `Transaction.findById` -/
def findTxnById (s : Store) (i : Nat) : Option Txn :=
  findBy Txn.tid s.transactions i

/-- `Transaction.findOne({ paymeTransactionId })` -/
def findTxnByPaymeId (s : Store) (pid : String) : Option Txn :=
  s.transactions.find? (fun t => decide (t.paymeTransactionId = some pid))

/-- `Subscription.findById` -/
def findSubById (s : Store) (i : Nat) : Option Subscr :=
  findBy Subscr.sid s.subscriptions i

/-- `User.findById` -/
def findUserById (s : Store) (i : Nat) : Option UserDoc :=
  findBy UserDoc.uid s.users i

/-- `transaction.save()` -/
def saveTxn (s : Store) (t : Txn) : Store :=
  { s with transactions := saveBy Txn.tid s.transactions t }

/-- `subscription.save()` -/
def saveSub (s : Store) (sub : Subscr) : Store :=
  { s with subscriptions := saveBy Subscr.sid s.subscriptions sub }

/-- `user.save()` -/
def saveUser (s : Store) (u : UserDoc) : Store :=
  { s with users := saveBy UserDoc.uid s.users u }

/-! ### PayMe webhook service (`src/services/paymeService.js`) -/

/-- The JSON-RPC request parameters the five webhook methods destructure:
`params.id` (the PayMe-side transaction id), `params.account.transaction_id`
(the internal transaction id), `params.amount`, `params.time`,
`params.reason`. -/
structure PaymeParams where
  paymeId : String
  accountTransactionId : Nat
  amount : Int
  time : Int
  reason : String
deriving DecidableEq, Repr

/-- The five webhook methods dispatched by `PaymeService.handleWebhook`. -/
inductive PaymeMethod where
  | CheckPerformTransaction
  | CreateTransaction
  | PerformTransaction
  | CancelTransaction
  | CheckTransaction
deriving DecidableEq, Repr

/-- The JSON-RPC result objects the five webhook methods return. -/
inductive PaymeResult where
  | allowResult (allow : Bool)
  | createResult (create_time : Int) (transaction : Nat) (state : Int)
  | performResult (transaction : Nat) (perform_time : Int) (state : Int)
  | cancelResult (transaction : Nat) (cancel_time : Int) (state : Int)
  | checkResult (create_time perform_time cancel_time : Int) (transaction : Nat)
      (state : Int) (reason : Option String)
deriving DecidableEq, Repr

/-- The `result.transaction` field the controller hands to
`activateSubscriptionFromTransaction`; `none` for the one result shape that
has no such field (in JS it would be `undefined`, so the activation lookup
fails). -/
def PaymeResult.transactionField : PaymeResult → Option Nat
  | .allowResult _ => none
  | .createResult _ t _ => some t
  | .performResult t _ _ => some t
  | .cancelResult t _ _ => some t
  | .checkResult _ _ _ t _ _ => some t

/-- `PaymeService.checkPerformTransaction`: the transaction must exist and be
`pending`. -/
def checkPerformTransaction (p : PaymeParams) (s : Store) : Except String PaymeResult × Store :=
  match findTxnById s p.accountTransactionId with
  | none => (.error "Transaction not found", s)
  | some t =>
    if t.status ≠ TxStatus.pending then (.error "Transaction already processed", s)
    else (.ok (.allowResult true), s)

/-- `PaymeService.createTransaction`: if a transaction is already bound to the
PayMe id, report state 2 when it is completed and state 1 otherwise, with no
side effect; else bind the PayMe id to the internal transaction named by
`params.account.transaction_id` and move it to `processing`. -/
def createTransaction (now : Int) (p : PaymeParams) (s : Store) :
    Except String PaymeResult × Store :=
  match findTxnByPaymeId s p.paymeId with
  | some t =>
    if t.status = TxStatus.completed then
      (.ok (.createResult t.createdAt t.tid 2), s)
    else
      (.ok (.createResult t.createdAt t.tid 1), s)
  | none =>
    match findTxnById s p.accountTransactionId with
    | none => (.error "Transaction not found", s)
    | some t =>
      let t' : Txn :=
        { t with paymeTransactionId := some p.paymeId,
                 status := TxStatus.processing,
                 webhookReceived := true,
                 webhookReceivedAt := some p.time,
                 updatedAt := now }
      (.ok (.createResult p.time t.tid 1), saveTxn s t')

/-- `PaymeService.performTransaction`: look the transaction up by the PayMe id;
if already `completed` return the stored timestamps, otherwise mark it
`completed`. -/
def performTransaction (now : Int) (p : PaymeParams) (s : Store) :
    Except String PaymeResult × Store :=
  match findTxnByPaymeId s p.paymeId with
  | none => (.error "Transaction not found", s)
  | some t =>
    if t.status = TxStatus.completed then
      (.ok (.performResult t.tid t.updatedAt 2), s)
    else
      let t' : Txn := { t with status := TxStatus.completed, updatedAt := now }
      (.ok (.performResult t.tid now 2), saveTxn s t')

/-- `PaymeService.cancelTransaction`: refuse to cancel a completed
transaction; otherwise mark it `cancelled` and record the reason in
`errorMessage`. -/
def cancelTransaction (now : Int) (p : PaymeParams) (s : Store) :
    Except String PaymeResult × Store :=
  match findTxnByPaymeId s p.paymeId with
  | none => (.error "Transaction not found", s)
  | some t =>
    if t.status = TxStatus.completed then
      (.error "Cannot cancel completed transaction", s)
    else
      let t' : Txn :=
        { t with status := TxStatus.cancelled,
                 errorMessage := some ("Cancelled: " ++ p.reason),
                 updatedAt := now }
      (.ok (.cancelResult t.tid now (-1)), saveTxn s t')

/-- The protocol state code `PaymeService.checkTransaction` derives from the
internal status (pending 0, processing 1, completed 2, cancelled/failed -1,
refunded -2). -/
def statusToState : TxStatus → Int
  | .pending => 0
  | .processing => 1
  | .completed => 2
  | .cancelled => -1
  | .failed => -1
  | .refunded => -2

/-- `PaymeService.checkTransaction`: a pure read reporting the protocol state
code plus stored timestamps. -/
def checkTransaction (p : PaymeParams) (s : Store) : Except String PaymeResult × Store :=
  match findTxnByPaymeId s p.paymeId with
  | none => (.error "Transaction not found", s)
  | some t =>
    (.ok (.checkResult t.createdAt
      (if t.status = TxStatus.completed then t.updatedAt else 0)
      (if t.status = TxStatus.cancelled then t.updatedAt else 0)
      t.tid (statusToState t.status) t.errorMessage), s)

/-- `PaymeService.handleWebhook`: dispatch on the JSON-RPC method name. -/
def handleWebhook (now : Int) (m : PaymeMethod) (p : PaymeParams) (s : Store) :
    Except String PaymeResult × Store :=
  match m with
  | .CheckPerformTransaction => checkPerformTransaction p s
  | .CreateTransaction => createTransaction now p s
  | .PerformTransaction => performTransaction now p s
  | .CancelTransaction => cancelTransaction now p s
  | .CheckTransaction => checkTransaction p s

/-! ### Signature verification and the webhook controller
(`PaymeService.verifyWebhookSignature`, `handlePaymeWebhook` and
`activateSubscriptionFromTransaction` in the payment controller) -/

/-- `PaymeService.verifyWebhookSignature`: HMAC-SHA256 of the canonical
(JSON-stringified) payload under the secret key, compared with
`crypto.timingSafeEqual`.  The HMAC itself is an opaque library call, passed
in as `hmac : secret → message → hex digest`.  `timingSafeEqual` throws when
the two buffers have different lengths, hence the length guard; a missing
secret key also throws. -/
def verifyWebhookSignature (hmac : String → String → String) (secretKey : Option String)
    (canonicalPayload : String) (signature : String) : Except String Bool :=
  match secretKey with
  | none => .error "PayMe secret key not configured"
  | some key =>
    let expectedSignature := hmac key canonicalPayload
    if signature.length ≠ expectedSignature.length then
      .error "timingSafeEqual buffers must have the same byte length"
    else
      .ok (signature = expectedSignature)

/-- Why `activateSubscriptionFromTransaction` bailed out with a logged error
(the two `logger.error` early returns in the source; a thrown DB error lands
in the same swallowing catch). -/
inductive ActivationFailure where
  | transactionNotFound
  | userNotFound
deriving DecidableEq, Repr

/-- The body of `activateSubscriptionFromTransaction` without its outer
try/catch: re-read the transaction, guard (not completed / already bound are
silent no-ops, missing documents are logged failures), then create the
`active` Subscription, link it on the transaction, and rewrite the user's
entitlement snapshot. -/
def activateSubscriptionInner (now : Int) (durationDays : Int) (txnId : Option Nat)
    (s : Store) : Except ActivationFailure Store :=
  match txnId.bind (findTxnById s) with
  | none => .error .transactionNotFound
  | some t =>
    if t.status ≠ TxStatus.completed then .ok s
    else if t.subscriptionId.isSome then .ok s
    else
      match findUserById s t.userId with
      | none => .error .userNotFound
      | some u =>
        let startDate := now
        let endDate := startDate + durationDays * 86400000
        let sub : Subscr :=
          { sid := s.nextSubId, userId := u.uid, status := SubStatus.active,
            startDate := startDate, endDate := endDate, autoRenew := false,
            lastPaymentId := some t.tid, gracePeriodStarted := none }
        let s1 : Store :=
          { s with subscriptions := s.subscriptions ++ [sub], nextSubId := s.nextSubId + 1 }
        let s2 := saveTxn s1 { t with subscriptionId := some sub.sid, updatedAt := now }
        let s3 := saveUser s2
          { u with subscriptionStatus := SubStatus.active,
                   currentSubscriptionId := some sub.sid,
                   subscriptionExpiresAt := some endDate,
                   gracePeriodEndsAt := none }
        .ok s3

/-- `activateSubscriptionFromTransaction`: every failure is logged and
swallowed (the payment is already completed, so the webhook must still be
acknowledged), leaving the store untouched. -/
def activateSubscriptionFromTransaction (now : Int) (durationDays : Int)
    (txnId : Option Nat) (s : Store) : Store :=
  match activateSubscriptionInner now durationDays txnId s with
  | .ok s' => s'
  | .error _ => s

/-- The three response shapes of the webhook controller: a 401 on signature
failure, a JSON-RPC error from a thrown method, or a JSON-RPC result. -/
inductive WebhookResponse where
  | authError (id : Int) (code : Int) (message : String)
  | rpcError (id : Int) (code : Int) (message : String)
  | rpcResult (id : Int) (result : PaymeResult)
deriving DecidableEq, Repr

/-- The payment controller's `handlePaymeWebhook`: verify the
`x-payme-signature` header (absent header ⇒ `Buffer.from(undefined)` throws
⇒ the verification catch), 401 on any verification failure, then dispatch
the method; on `PerformTransaction` additionally run the activation side
effect before answering with the method result; a thrown method error
becomes a JSON-RPC error response. -/
def handlePaymeWebhook (hmac : String → String → String) (secretKey : Option String)
    (canonicalPayload : String) (signature : Option String) (payloadId : Int)
    (now : Int) (durationDays : Int) (m : PaymeMethod) (p : PaymeParams) (s : Store) :
    WebhookResponse × Store :=
  match signature with
  | none => (.authError payloadId (-32504) "Signature verification failed", s)
  | some sg =>
    match verifyWebhookSignature hmac secretKey canonicalPayload sg with
    | .error _ => (.authError payloadId (-32504) "Signature verification failed", s)
    | .ok false => (.authError payloadId (-32504) "Invalid signature", s)
    | .ok true =>
      match handleWebhook now m p s with
      | (.error msg, s1) => (.rpcError payloadId (-32400) msg, s1)
      | (.ok r, s1) =>
        if m = PaymeMethod.PerformTransaction then
          (.rpcResult payloadId r,
            activateSubscriptionFromTransaction now durationDays r.transactionField s1)
        else
          (.rpcResult payloadId r, s1)

/-! ### Subscription cleanup scheduler
(`SubscriptionCleanupService` in `src/services/subscriptionCleanupService.js`) -/

/-- The Mongo query operator `field: \x7b $lte: now \x7d` on an optional date:
a missing field never matches. -/
def optLe (d : Option Int) (now : Int) : Bool :=
  match d with
  | none => false
  | some e => decide (e ≤ now)

/-- One step of the phase-1 loop body: mark the subscription `expired`,
stamp `gracePeriodStarted`, then move its owner (when found) to the
`grace_period` snapshot ending `gracePeriodDays` days from `now`. -/
def expireOneSubscription (now : Int) (gracePeriodDays : Int) (st : Store) (sub : Subscr) :
    Store :=
  let st1 := saveSub st { sub with status := SubStatus.expired, gracePeriodStarted := some now }
  match findUserById st1 sub.userId with
  | none => st1
  | some u =>
    saveUser st1
      { u with subscriptionStatus := SubStatus.gracePeriod,
               gracePeriodEndsAt := some (now + gracePeriodDays * 86400000) }

/-- `SubscriptionCleanupService.expireSubscriptions` (phase 1): every
subscription that is `active` with `endDate ≤ now` is expired and its owner
moved to the grace period; records are processed independently. -/
def expireSubscriptions (now : Int) (gracePeriodDays : Int) (s : Store) : Store :=
  let expiredSubscriptions :=
    s.subscriptions.filter (fun sub =>
      decide (sub.status = SubStatus.active) && decide (sub.endDate ≤ now))
  expiredSubscriptions.foldl (expireOneSubscription now gracePeriodDays) s

/-- One step of the phase-2 loop body: snapshot to `expired`, clear the
grace-period end date. -/
def expireOneGracePeriod (st : Store) (u : UserDoc) : Store :=
  saveUser st { u with subscriptionStatus := SubStatus.expired, gracePeriodEndsAt := none }

/-- `SubscriptionCleanupService.expireGracePeriods` (phase 2): every user in
`grace_period` whose `gracePeriodEndsAt ≤ now` is moved to `expired`. -/
def expireGracePeriods (now : Int) (s : Store) : Store :=
  let expiredGracePeriodUsers :=
    s.users.filter (fun u =>
      decide (u.subscriptionStatus = SubStatus.gracePeriod) && optLe u.gracePeriodEndsAt now)
  expiredGracePeriodUsers.foldl expireOneGracePeriod s

/-- `SubscriptionCleanupService.runCleanup`: one scheduler pass = phase 1
then phase 2. -/
def runCleanup (now : Int) (gracePeriodDays : Int) (s : Store) : Store :=
  expireGracePeriods now (expireSubscriptions now gracePeriodDays s)

/-! ### Access gate (`requireActiveSubscription` in `src/middlewares/auth.js`) -/

/-- The JS truthy-date-and-in-the-future test `d && d > now`
(`null`/`undefined` fail the truthiness check; a Date object, even epoch, is
truthy). -/
def optAfter (d : Option Int) (now : Int) : Bool :=
  match d with
  | none => false
  | some e => decide (now < e)

/-- `user.hasActiveSubscription()` (`src/models/User.js`), inlined in the
middleware: snapshot `active` with a future `subscriptionExpiresAt`. -/
def hasActiveSubscription (u : UserDoc) (now : Int) : Bool :=
  decide (u.subscriptionStatus = SubStatus.active) && optAfter u.subscriptionExpiresAt now

/-- `user.isInGracePeriod()` (`src/models/User.js`), inlined in the
middleware: snapshot `grace_period` with a future `gracePeriodEndsAt`. -/
def isInGracePeriod (u : UserDoc) (now : Int) : Bool :=
  decide (u.subscriptionStatus = SubStatus.gracePeriod) && optAfter u.gracePeriodEndsAt now

/-- Outcome of the subscription gate: pass through, pass through with the
grace-period warning headers, or a 403 carrying `SUBSCRIPTION_REQUIRED`
plus the snapshot fields. -/
inductive GateResult where
  | allowed
  | allowedWithGraceWarning (endsAt : Int)
  | denied (code : String) (subscriptionStatus : SubStatus) (expiresAt : Option Int)
deriving DecidableEq, Repr

/-- The snapshot evaluator inside `requireActiveSubscription` (the part after
the authentication/KYC preconditions, which the spec places strictly before
the access gate): deny with `SUBSCRIPTION_REQUIRED` unless the snapshot is
active-and-unexpired or in a live grace period; in the latter case attach
the grace warning with its end date.  The denial reports the stored
snapshot status (`none` when unset, which the enum default already is). -/
def requireActiveSubscriptionGate (u : UserDoc) (now : Int) : GateResult :=
  let hasActive := hasActiveSubscription u now
  let inGrace := isInGracePeriod u now
  if !hasActive && !inGrace then
    GateResult.denied "SUBSCRIPTION_REQUIRED" u.subscriptionStatus u.subscriptionExpiresAt
  else if inGrace then
    GateResult.allowedWithGraceWarning (u.gracePeriodEndsAt.getD 0)
  else
    GateResult.allowed

/-- The full middleware `requireActiveSubscription`: an unauthenticated or
KYC-unverified request is rejected before the snapshot is consulted. -/
def requireActiveSubscription (user : Option UserDoc) (now : Int) : Except String GateResult :=
  match user with
  | none => .error "Authentication required"
  | some u =>
    if !u.kycVerified then .error "KYC verification required"
    else .ok (requireActiveSubscriptionGate u now)

/-! ### Payment initiation (`initiateSubscription` in the subscription
controller) -/

/-- Responses of `initiateSubscription` relevant to the claims: the 201 body
(transactionId, amount, currency, expiresIn — the PayMe redirect URL string
itself is opaque here, `generatePaymentUrl` is modelled by its
configuration guard) or a 400 with a message. -/
inductive InitiateResult where
  | created (transactionId : Nat) (amount : Int) (currency : Currency) (expiresIn : Int)
  | badRequest (message : String)
deriving DecidableEq, Repr

/-- The duplicate-initiation query
`Transaction.findOne(userId, status in [pending, processing])`. -/
def pendingOrProcessingFor (userId : Nat) (t : Txn) : Bool :=
  decide (t.userId = userId) &&
    (decide (t.status = TxStatus.pending) || decide (t.status = TxStatus.processing))

/-- `initiateSubscription`: refuse while the user already has a `pending` or
`processing` transaction; otherwise create a `pending` transaction at the
configured price for the currency and hand out the payment URL.
`generatePaymentUrl` throws when the merchant id is unconfigured, in which
case the fresh transaction is marked failed (`markAsFailed`). -/
def initiateSubscription (now : Int) (merchantConfigured : Bool)
    (priceUSD priceUZS : Int) (userId : Nat) (currency : Currency) (s : Store) :
    InitiateResult × Store :=
  match s.transactions.find? (pendingOrProcessingFor userId) with
  | some _ =>
    (.badRequest "A payment is already in progress. Please complete or wait for it to expire.", s)
  | none =>
    let amount := if currency = Currency.USD then priceUSD else priceUZS
    let t : Txn :=
      { tid := s.nextTxnId, userId := userId, subscriptionId := none,
        paymeTransactionId := none, amount := amount, currency := currency,
        status := TxStatus.pending, webhookReceived := false, webhookReceivedAt := none,
        errorMessage := none, errorCode := none, createdAt := now, updatedAt := now }
    let s1 : Store :=
      { s with transactions := s.transactions ++ [t], nextTxnId := s.nextTxnId + 1 }
    if merchantConfigured then
      (.created t.tid amount currency 900, s1)
    else
      (.badRequest "Failed to initiate payment. Please try again.",
        saveTxn s1
          { t with status := TxStatus.failed,
                   errorMessage := some "PayMe merchant ID not configured. Please set PAYME_MERCHANT_ID in .env",
                   errorCode := some "PAYMENT_URL_GENERATION_FAILED",
                   updatedAt := now })

/-! ## Claim theorems -/

/-! ### C5 — the access gate -/

theorem hasActiveSubscription_iff (u : UserDoc) (now : Int) :
    hasActiveSubscription u now = true ↔
      u.subscriptionStatus = SubStatus.active ∧
        ∃ e, u.subscriptionExpiresAt = some e ∧ now < e := by
  cases h : u.subscriptionExpiresAt with
  | none => simp [hasActiveSubscription, optAfter, h]
  | some e => simp [hasActiveSubscription, optAfter, h]

theorem isInGracePeriod_iff (u : UserDoc) (now : Int) :
    isInGracePeriod u now = true ↔
      u.subscriptionStatus = SubStatus.gracePeriod ∧
        ∃ g, u.gracePeriodEndsAt = some g ∧ now < g := by
  cases h : u.gracePeriodEndsAt with
  | none => simp [isInGracePeriod, optAfter, h]
  | some g => simp [isInGracePeriod, optAfter, h]

/-- C5: the access gate is a pure function of the entitlement snapshot and the
current time.  It allows the protected action iff the snapshot is `active`
with `subscriptionExpiresAt > now`; it allows with a grace warning exposing
the grace end time iff the snapshot is `grace_period` with
`gracePeriodEndsAt > now`; in every other snapshot state it denies with
reason `SUBSCRIPTION_REQUIRED`. -/
theorem C5_accessGate (u : UserDoc) (now : Int) :
    (requireActiveSubscriptionGate u now = GateResult.allowed ↔
      u.subscriptionStatus = SubStatus.active ∧
        ∃ e, u.subscriptionExpiresAt = some e ∧ now < e) ∧
    (∀ g, requireActiveSubscriptionGate u now = GateResult.allowedWithGraceWarning g ↔
      u.subscriptionStatus = SubStatus.gracePeriod ∧
        u.gracePeriodEndsAt = some g ∧ now < g) ∧
    ((¬ (u.subscriptionStatus = SubStatus.active ∧
          ∃ e, u.subscriptionExpiresAt = some e ∧ now < e) ∧
      ¬ (u.subscriptionStatus = SubStatus.gracePeriod ∧
          ∃ g, u.gracePeriodEndsAt = some g ∧ now < g)) ↔
      requireActiveSubscriptionGate u now =
        GateResult.denied "SUBSCRIPTION_REQUIRED" u.subscriptionStatus
          u.subscriptionExpiresAt) := by
  by_cases hA : hasActiveSubscription u now = true
  · have hAc := (hasActiveSubscription_iff u now).mp hA
    have hG : isInGracePeriod u now = false := by
      rcases Bool.eq_false_or_eq_true (isInGracePeriod u now) with h | h
      · have hGc := (isInGracePeriod_iff u now).mp h
        rw [hAc.1] at hGc
        exact absurd hGc.1 (by simp)
      · exact h
    have hgate : requireActiveSubscriptionGate u now = GateResult.allowed := by
      simp [requireActiveSubscriptionGate, hA, hG]
    refine ⟨?_, ?_, ?_⟩
    · simp [hgate, hAc]
    · intro g
      simp only [hgate]
      constructor
      · intro h
        exact absurd h (by simp)
      · rintro ⟨hst, -, -⟩
        rw [hAc.1] at hst
        simp at hst
    · constructor
      · rintro ⟨hna, -⟩
        exact absurd hAc hna
      · intro h
        rw [hgate] at h
        exact absurd h (by simp)
  · have hA' : hasActiveSubscription u now = false := by
      rcases Bool.eq_false_or_eq_true (hasActiveSubscription u now) with h | h
      · exact absurd h hA
      · exact h
    have hnAc := fun hc => hA ((hasActiveSubscription_iff u now).mpr hc)
    by_cases hG : isInGracePeriod u now = true
    · have hGc := (isInGracePeriod_iff u now).mp hG
      rcases hGc with ⟨hst, g0, hg0, hlt⟩
      have hgate : requireActiveSubscriptionGate u now =
          GateResult.allowedWithGraceWarning g0 := by
        simp [requireActiveSubscriptionGate, hA', hG, hg0]
      refine ⟨?_, ?_, ?_⟩
      · simp only [hgate]
        constructor
        · intro h
          exact absurd h (by simp)
        · intro hc
          exact absurd hc hnAc
      · intro g
        simp only [hgate]
        constructor
        · intro h
          have hgg : g0 = g := by
            simpa using h
          exact ⟨hst, hgg ▸ hg0, hgg ▸ hlt⟩
        · rintro ⟨-, hg, -⟩
          rw [hg0] at hg
          simp only [Option.some.injEq] at hg
          simp [hg]
      · constructor
        · rintro ⟨-, hng⟩
          exact absurd ⟨hst, g0, hg0, hlt⟩ hng
        · intro h
          rw [hgate] at h
          exact absurd h (by simp)
    · have hG' : isInGracePeriod u now = false := by
        rcases Bool.eq_false_or_eq_true (isInGracePeriod u now) with h | h
        · exact absurd h hG
        · exact h
      have hnGc := fun hc => hG ((isInGracePeriod_iff u now).mpr hc)
      have hgate : requireActiveSubscriptionGate u now =
          GateResult.denied "SUBSCRIPTION_REQUIRED" u.subscriptionStatus
            u.subscriptionExpiresAt := by
        simp [requireActiveSubscriptionGate, hA', hG']
      refine ⟨?_, ?_, ?_⟩
      · simp only [hgate]
        constructor
        · intro h
          exact absurd h (by simp)
        · intro hc
          exact absurd hc hnAc
      · intro g
        simp only [hgate]
        constructor
        · intro h
          exact absurd h (by simp)
        · rintro ⟨hst, hg, hlt⟩
          exact absurd ⟨hst, g, hg, hlt⟩ hnGc
      · exact ⟨fun _ => hgate, fun _ => ⟨hnAc, hnGc⟩⟩

/-! ### C10 — independence from the gateway-reported amount -/

/-- C10: the outcome of `CreateTransaction` and `PerformTransaction` — the
returned result and every stored-state effect, the full webhook pipeline
with binding, completion and subscription activation included — is the same
for any two deliveries that differ only in `params.amount`; the
gateway-reported amount is never compared against the stored
`Transaction.amount`. -/
theorem C10_amountIndependence (now durationDays : Int) (pid : String) (atid : Nat)
    (time : Int) (reason : String) (a1 a2 : Int) (s : Store)
    (hmac : String → String → String) (secretKey : Option String)
    (canonicalPayload : String) (signature : Option String) (payloadId : Int) :
    createTransaction now ⟨pid, atid, a1, time, reason⟩ s =
      createTransaction now ⟨pid, atid, a2, time, reason⟩ s ∧
    performTransaction now ⟨pid, atid, a1, time, reason⟩ s =
      performTransaction now ⟨pid, atid, a2, time, reason⟩ s ∧
    handlePaymeWebhook hmac secretKey canonicalPayload signature payloadId now durationDays
        PaymeMethod.CreateTransaction ⟨pid, atid, a1, time, reason⟩ s =
      handlePaymeWebhook hmac secretKey canonicalPayload signature payloadId now durationDays
        PaymeMethod.CreateTransaction ⟨pid, atid, a2, time, reason⟩ s ∧
    handlePaymeWebhook hmac secretKey canonicalPayload signature payloadId now durationDays
        PaymeMethod.PerformTransaction ⟨pid, atid, a1, time, reason⟩ s =
      handlePaymeWebhook hmac secretKey canonicalPayload signature payloadId now durationDays
        PaymeMethod.PerformTransaction ⟨pid, atid, a2, time, reason⟩ s :=
  ⟨rfl, rfl, rfl, rfl⟩

/-! ### C4 — bad signatures are rejected before any state is touched -/

/-- C4: for every payload and signature whose value differs from
HMAC-SHA256(secret, canonical payload), the webhook handler answers with an
authentication error (HTTP 401, code -32504), the store is left exactly as
it was, and the answer does not depend on the store at all (no state is
read): any two stores produce the same response. -/
theorem C4_badSignatureRejected (hmac : String → String → String) (key : String)
    (canonicalPayload : String) (sg : String) (payloadId : Int) (now durationDays : Int)
    (m : PaymeMethod) (p : PaymeParams) (s : Store)
    (hsig : sg ≠ hmac key canonicalPayload) :
    (∃ msg, handlePaymeWebhook hmac (some key) canonicalPayload (some sg) payloadId now
        durationDays m p s = (WebhookResponse.authError payloadId (-32504) msg, s)) ∧
    (∀ s2 : Store,
      (handlePaymeWebhook hmac (some key) canonicalPayload (some sg) payloadId now
        durationDays m p s).1 =
      (handlePaymeWebhook hmac (some key) canonicalPayload (some sg) payloadId now
        durationDays m p s2).1) := by
  by_cases hl : sg.length = (hmac key canonicalPayload).length
  · have hv : verifyWebhookSignature hmac (some key) canonicalPayload sg = .ok false := by
      simp [verifyWebhookSignature, hl, hsig]
    constructor
    · exact ⟨"Invalid signature", by simp [handlePaymeWebhook, hv]⟩
    · intro s2
      simp [handlePaymeWebhook, hv]
  · have hv : verifyWebhookSignature hmac (some key) canonicalPayload sg =
        .error "timingSafeEqual buffers must have the same byte length" := by
      simp [verifyWebhookSignature, hl]
    constructor
    · exact ⟨"Signature verification failed", by simp [handlePaymeWebhook, hv]⟩
    · intro s2
      simp [handlePaymeWebhook, hv]

/-- A concrete stand-in for the opaque HMAC-SHA256 call, used to instantiate
witnesses. -/
def hmacDemo (key message : String) : String :=
  key ++ ":" ++ message

/-- An empty store. -/
def emptyStore : Store :=
  { transactions := [], subscriptions := [], users := [], nextTxnId := 1, nextSubId := 1 }

theorem C4_badSignatureRejected_witness :
    ∃ msg, handlePaymeWebhook hmacDemo (some "secret") "payload" (some "forged") 7 1000 30
        PaymeMethod.PerformTransaction ⟨"p1", 1, 5, 0, ""⟩ emptyStore =
      (WebhookResponse.authError 7 (-32504) msg, emptyStore) :=
  (C4_badSignatureRejected hmacDemo "secret" "payload" "forged" 7 1000 30
    PaymeMethod.PerformTransaction ⟨"p1", 1, 5, 0, ""⟩ emptyStore (by decide)).1

/-! ### Demo documents for witnesses and counterexamples -/

/-- A freshly initiated transaction (all optional fields unset). -/
def demoTxn : Txn :=
  { tid := 1, userId := 1, subscriptionId := none, paymeTransactionId := none,
    amount := 12000, currency := Currency.UZS, status := TxStatus.pending,
    webhookReceived := false, webhookReceivedAt := none, errorMessage := none,
    errorCode := none, createdAt := 10, updatedAt := 10 }

/-- A user with no entitlement yet. -/
def demoUser : UserDoc :=
  { uid := 1, kycVerified := true, subscriptionStatus := SubStatus.noSubscription,
    currentSubscriptionId := none, subscriptionExpiresAt := none,
    gracePeriodEndsAt := none }

/-! ### C7 — CreateTransaction idempotency by external id -/

/-- C7 (amended): `CreateTransaction` is idempotent by external transaction
id — if a transaction is already bound to the given external id and is
`completed`, it returns state 2 with no side effect; if bound but not
completed, it returns the transaction with state code 1 (processing)
regardless of the stored status, with no side effect; otherwise it binds the
external id to the internal pending transaction identified by
`params.account.transaction_id` and moves it to `processing`. -/
theorem C7_createTransaction (now : Int) (p : PaymeParams) (s : Store) :
    (∀ t, findTxnByPaymeId s p.paymeId = some t → t.status = TxStatus.completed →
      createTransaction now p s =
        (Except.ok (PaymeResult.createResult t.createdAt t.tid 2), s)) ∧
    (∀ t, findTxnByPaymeId s p.paymeId = some t → t.status ≠ TxStatus.completed →
      createTransaction now p s =
        (Except.ok (PaymeResult.createResult t.createdAt t.tid 1), s)) ∧
    (findTxnByPaymeId s p.paymeId = none →
      ∀ t, findTxnById s p.accountTransactionId = some t → t.status = TxStatus.pending →
      createTransaction now p s =
        (Except.ok (PaymeResult.createResult p.time t.tid 1),
         saveTxn s
           { t with paymeTransactionId := some p.paymeId,
                    status := TxStatus.processing,
                    webhookReceived := true,
                    webhookReceivedAt := some p.time,
                    updatedAt := now })) := by
  refine ⟨?_, ?_, ?_⟩
  · intro t hfind hc
    simp [createTransaction, hfind, hc]
  · intro t hfind hc
    simp [createTransaction, hfind, hc]
  · intro hnone t hfind hp
    simp [createTransaction, hnone, hfind]

theorem C7_createTransaction_witness :
    (createTransaction 50 ⟨"pa", 9, 0, 40, ""⟩
        { emptyStore with transactions :=
            [{ demoTxn with paymeTransactionId := some "pa", status := TxStatus.completed }] } =
      (Except.ok (PaymeResult.createResult 10 1 2),
        { emptyStore with transactions :=
            [{ demoTxn with paymeTransactionId := some "pa", status := TxStatus.completed }] })) ∧
    (createTransaction 50 ⟨"pb", 9, 0, 40, ""⟩
        { emptyStore with transactions :=
            [{ demoTxn with paymeTransactionId := some "pb", status := TxStatus.processing }] } =
      (Except.ok (PaymeResult.createResult 10 1 1),
        { emptyStore with transactions :=
            [{ demoTxn with paymeTransactionId := some "pb", status := TxStatus.processing }] })) ∧
    (createTransaction 50 ⟨"pc", 1, 0, 40, ""⟩
        { emptyStore with transactions := [demoTxn] } =
      (Except.ok (PaymeResult.createResult 40 1 1),
        saveTxn { emptyStore with transactions := [demoTxn] }
          { demoTxn with paymeTransactionId := some "pc",
                         status := TxStatus.processing,
                         webhookReceived := true,
                         webhookReceivedAt := some 40,
                         updatedAt := 50 })) :=
  ⟨(C7_createTransaction 50 ⟨"pa", 9, 0, 40, ""⟩ _).1
      { demoTxn with paymeTransactionId := some "pa", status := TxStatus.completed }
      (by decide) (by decide),
   (C7_createTransaction 50 ⟨"pb", 9, 0, 40, ""⟩ _).2.1
      { demoTxn with paymeTransactionId := some "pb", status := TxStatus.processing }
      (by decide) (by decide),
   (C7_createTransaction 50 ⟨"pc", 1, 0, 40, ""⟩ _).2.2 (by decide) demoTxn
      (by decide) (by decide)⟩

/-- C7 counterexample to the claim as stated: a transaction bound to the
external id `"pc"` stands `cancelled` — its current state code is -1, as
`CheckTransaction` reports — yet replaying `CreateTransaction` answers state
code 1 (processing), not the transaction's current state. -/
theorem C7_counterexample :
    (findTxnByPaymeId
        { emptyStore with transactions :=
            [{ demoTxn with paymeTransactionId := some "pc", status := TxStatus.cancelled }] }
        "pc").map (fun t => statusToState t.status) = some (-1) ∧
    (createTransaction 50 ⟨"pc", 1, 0, 40, ""⟩
        { emptyStore with transactions :=
            [{ demoTxn with paymeTransactionId := some "pc", status := TxStatus.cancelled }] }).1 =
      Except.ok (PaymeResult.createResult 10 1 1) := by
  constructor
  · decide
  · rfl

/-! ### C8 — CancelTransaction is rejected on completed transactions -/

/-- C8: for a transaction in status `completed`, `CancelTransaction` is
rejected with the state-conflict error and the store — the transaction with
all its fields included — is unchanged; for a bound transaction not in
`completed`, it sets status `cancelled` and records the given reason in
`errorMessage`. -/
theorem C8_cancelTransaction (now : Int) (p : PaymeParams) (s : Store) :
    (∀ t, findTxnByPaymeId s p.paymeId = some t → t.status = TxStatus.completed →
      cancelTransaction now p s = (Except.error "Cannot cancel completed transaction", s)) ∧
    (∀ t, findTxnByPaymeId s p.paymeId = some t → t.status ≠ TxStatus.completed →
      cancelTransaction now p s =
        (Except.ok (PaymeResult.cancelResult t.tid now (-1)),
         saveTxn s
           { t with status := TxStatus.cancelled,
                    errorMessage := some ("Cancelled: " ++ p.reason),
                    updatedAt := now })) := by
  constructor
  · intro t hfind hc
    simp [cancelTransaction, hfind, hc]
  · intro t hfind hc
    simp [cancelTransaction, hfind, hc]

theorem C8_cancelTransaction_witness :
    (cancelTransaction 60 ⟨"pa", 9, 0, 40, "buyer refused"⟩
        { emptyStore with transactions :=
            [{ demoTxn with paymeTransactionId := some "pa", status := TxStatus.completed }] } =
      (Except.error "Cannot cancel completed transaction",
        { emptyStore with transactions :=
            [{ demoTxn with paymeTransactionId := some "pa", status := TxStatus.completed }] })) ∧
    (cancelTransaction 60 ⟨"pb", 9, 0, 40, "buyer refused"⟩
        { emptyStore with transactions :=
            [{ demoTxn with paymeTransactionId := some "pb", status := TxStatus.processing }] } =
      (Except.ok (PaymeResult.cancelResult 1 60 (-1)),
        saveTxn
          { emptyStore with transactions :=
              [{ demoTxn with paymeTransactionId := some "pb", status := TxStatus.processing }] }
          { demoTxn with paymeTransactionId := some "pb",
                         status := TxStatus.cancelled,
                         errorMessage := some "Cancelled: buyer refused",
                         updatedAt := 60 })) :=
  ⟨(C8_cancelTransaction 60 ⟨"pa", 9, 0, 40, "buyer refused"⟩ _).1
      { demoTxn with paymeTransactionId := some "pa", status := TxStatus.completed }
      (by decide) (by decide),
   (C8_cancelTransaction 60 ⟨"pb", 9, 0, 40, "buyer refused"⟩ _).2
      { demoTxn with paymeTransactionId := some "pb", status := TxStatus.processing }
      (by decide) (by decide)⟩

/-! ### C9 — duplicate payment initiation is blocked -/

/-- C9: while the user already has a `pending` or `processing` transaction, a
second initiation call is rejected with the "payment already in progress"
failure and the store is unchanged (no new Transaction record); with no such
transaction, initiation appends a fresh Transaction in status `pending`
carrying the configured price for the requested currency. -/
theorem C9_initiateSubscription (now : Int) (priceUSD priceUZS : Int)
    (userId : Nat) (currency : Currency) (s : Store) :
    ((∃ t ∈ s.transactions, pendingOrProcessingFor userId t = true) →
      initiateSubscription now true priceUSD priceUZS userId currency s =
        (InitiateResult.badRequest
          "A payment is already in progress. Please complete or wait for it to expire.", s)) ∧
    (s.transactions.find? (pendingOrProcessingFor userId) = none →
      initiateSubscription now true priceUSD priceUZS userId currency s =
        (InitiateResult.created s.nextTxnId
          (if currency = Currency.USD then priceUSD else priceUZS) currency 900,
         { s with
            transactions := s.transactions ++
              [{ tid := s.nextTxnId, userId := userId, subscriptionId := none,
                 paymeTransactionId := none,
                 amount := if currency = Currency.USD then priceUSD else priceUZS,
                 currency := currency, status := TxStatus.pending,
                 webhookReceived := false, webhookReceivedAt := none,
                 errorMessage := none, errorCode := none,
                 createdAt := now, updatedAt := now }],
            nextTxnId := s.nextTxnId + 1 })) := by
  constructor
  · intro hex
    have hne : s.transactions.find? (pendingOrProcessingFor userId) ≠ none := by
      intro h
      rw [List.find?_eq_none] at h
      rcases hex with ⟨t, ht, hp⟩
      exact h t ht hp
    rcases Option.ne_none_iff_exists.mp hne with ⟨t, ht⟩
    simp [initiateSubscription, ht.symm]
  · intro hnone
    simp [initiateSubscription, hnone]

theorem C9_initiateSubscription_witness :
    (initiateSubscription 70 true 1 12000 1 Currency.UZS
        { emptyStore with transactions := [demoTxn], nextTxnId := 2 } =
      (InitiateResult.badRequest
        "A payment is already in progress. Please complete or wait for it to expire.",
       { emptyStore with transactions := [demoTxn], nextTxnId := 2 })) ∧
    (initiateSubscription 70 true 1 12000 1 Currency.UZS emptyStore =
      (InitiateResult.created 1 12000 Currency.UZS 900,
       { emptyStore with
          transactions :=
            [{ tid := 1, userId := 1, subscriptionId := none, paymeTransactionId := none,
               amount := 12000, currency := Currency.UZS, status := TxStatus.pending,
               webhookReceived := false, webhookReceivedAt := none,
               errorMessage := none, errorCode := none, createdAt := 70, updatedAt := 70 }],
          nextTxnId := 2 })) :=
  ⟨(C9_initiateSubscription 70 1 12000 1 Currency.UZS _).1 ⟨demoTxn, by decide, by decide⟩,
   (C9_initiateSubscription 70 1 12000 1 Currency.UZS emptyStore).2 (by decide)⟩

/-! ### Shared lemmas about the webhook pipeline -/

theorem findTxnByPaymeId_mem {s : Store} {pid : String} {t : Txn}
    (h : findTxnByPaymeId s pid = some t) :
    t ∈ s.transactions ∧ t.paymeTransactionId = some pid := by
  refine ⟨List.mem_of_find?_eq_some h, ?_⟩
  have := List.find?_some h
  simpa using this

theorem verify_ok_of_valid (hmac : String → String → String) (key cp : String) :
    verifyWebhookSignature hmac (some key) cp (hmac key cp) = .ok true := by
  simp [verifyWebhookSignature]

theorem findTxnById_saveTxn_other (s : Store) (t : Txn) {i : Nat} (h : i ≠ t.tid) :
    findTxnById (saveTxn s t) i = findTxnById s i :=
  findBy_saveBy_other Txn.tid s.transactions t h

theorem tid_ne_of_other {s : Store} {i : Nat} {t t2 : Txn}
    (hnd : (s.transactions.map Txn.tid).Nodup)
    (hfind : findTxnById s i = some t) (hmem2 : t2 ∈ s.transactions) (hne : t2 ≠ t) :
    t2.tid ≠ i := by
  intro he
  have h2 : findTxnById s t2.tid = some t2 := findBy_of_mem_nodup hnd hmem2
  rw [he, hfind] at h2
  exact hne (Option.some.inj h2.symm)

theorem findTxnById_saveUser (s : Store) (u : UserDoc) (i : Nat) :
    findTxnById (saveUser s u) i = findTxnById s i := rfl

theorem checkPerformTransaction_snd (p : PaymeParams) (s : Store) :
    (checkPerformTransaction p s).2 = s := by
  unfold checkPerformTransaction
  cases findTxnById s p.accountTransactionId with
  | none => rfl
  | some ta =>
    by_cases hp : ta.status ≠ TxStatus.pending
    · simp [hp]
    · simp [hp]

theorem checkTransaction_snd (p : PaymeParams) (s : Store) :
    (checkTransaction p s).2 = s := by
  unfold checkTransaction
  cases findTxnByPaymeId s p.paymeId with
  | none => rfl
  | some ta => rfl

/-- The activation side effect writes transactions only at the id it was
given: every other transaction record is untouched. -/
theorem findTxnById_activate_other (now dur : Int) (j : Nat) (s : Store) {i : Nat}
    (hij : i ≠ j) :
    findTxnById (activateSubscriptionFromTransaction now dur (some j) s) i =
      findTxnById s i := by
  cases hfj : findTxnById s j with
  | none => simp [activateSubscriptionFromTransaction, activateSubscriptionInner, hfj]
  | some t2 =>
    have ht2 : t2.tid = j := (findBy_mem hfj).2
    by_cases hcc : t2.status = TxStatus.completed
    · cases hsub : t2.subscriptionId with
      | some sid =>
        simp [activateSubscriptionFromTransaction, activateSubscriptionInner, hfj, hcc, hsub]
      | none =>
        cases hu : findUserById s t2.userId with
        | none =>
          simp [activateSubscriptionFromTransaction, activateSubscriptionInner, hfj, hcc,
            hsub, hu]
        | some u =>
          have hne : i ≠ Txn.tid { t2 with subscriptionId := some s.nextSubId,
                                           status := TxStatus.completed,
                                           updatedAt := now } := by
            simpa [ht2] using hij
          have hstep := findTxnById_saveTxn_other
            ({ s with
                subscriptions := s.subscriptions ++
                  [{ sid := s.nextSubId, userId := u.uid, status := SubStatus.active,
                     startDate := now, endDate := now + dur * 86400000, autoRenew := false,
                     lastPaymentId := some t2.tid, gracePeriodStarted := none }],
                nextSubId := s.nextSubId + 1 } : Store)
            { t2 with subscriptionId := some s.nextSubId, status := TxStatus.completed,
                      updatedAt := now } hne
          simp only [activateSubscriptionFromTransaction, activateSubscriptionInner,
            Option.some_bind, hfj, hcc, hsub, hu]
          simpa [findTxnById, saveUser, saveTxn, saveBy] using hstep
    · simp [activateSubscriptionFromTransaction, activateSubscriptionInner, hfj, hcc]

/-- Whatever the activation side effect does, a transaction record that was
`completed` is still found `completed` afterwards (activation only ever adds
a `subscriptionId` onto a completed transaction). -/
theorem activate_preserves_completed (now dur : Int) (oj : Option Nat) (s : Store)
    {i : Nat} {t : Txn} (hfind : findTxnById s i = some t)
    (hc : t.status = TxStatus.completed) :
    ∃ t', findTxnById (activateSubscriptionFromTransaction now dur oj s) i = some t' ∧
      t'.status = TxStatus.completed := by
  cases oj with
  | none =>
    exact ⟨t, by simpa [activateSubscriptionFromTransaction, activateSubscriptionInner]
      using hfind, hc⟩
  | some j =>
    by_cases hj : j = i
    · subst hj
      have htid : t.tid = j := (findBy_mem hfind).2
      cases hsub : t.subscriptionId with
      | some sid =>
        refine ⟨t, ?_, hc⟩
        simp [activateSubscriptionFromTransaction, activateSubscriptionInner, hfind, hc, hsub]
      | none =>
        have hmem : t ∈ s.transactions := (findBy_mem hfind).1
        cases hu : findUserById s t.userId with
        | none =>
          refine ⟨t, ?_, hc⟩
          simp [activateSubscriptionFromTransaction, activateSubscriptionInner, hfind, hc,
            hsub, hu]
        | some u =>
          refine ⟨{ t with subscriptionId := some s.nextSubId, updatedAt := now }, ?_, hc⟩
          have hsave : findTxnById
              (saveTxn
                { s with
                  subscriptions := s.subscriptions ++
                    [{ sid := s.nextSubId, userId := u.uid, status := SubStatus.active,
                       startDate := now, endDate := now + dur * 86400000, autoRenew := false,
                       lastPaymentId := some t.tid, gracePeriodStarted := none }],
                  nextSubId := s.nextSubId + 1 }
                { t with subscriptionId := some s.nextSubId, updatedAt := now }) j =
              some { t with subscriptionId := some s.nextSubId, updatedAt := now } := by
            have := findBy_saveBy_same Txn.tid s.transactions
              { t with subscriptionId := some s.nextSubId, updatedAt := now }
              ⟨t, hmem, by simp⟩
            simpa [findTxnById, saveTxn, htid] using this
          simpa [activateSubscriptionFromTransaction, activateSubscriptionInner, hfind, hc,
            hsub, hu, saveUser] using hsave
    · refine ⟨t, ?_, hc⟩
      rw [findTxnById_activate_other now dur j s (fun he => hj he.symm)]
      exact hfind

/-! ### C6 — activation failures never turn the webhook response into an error -/

/-- C6: whenever the `PerformTransaction` method itself succeeds (lookup and
completion), the webhook controller answers the gateway with that success
result, whatever the activation side effect then does — its failures
(transaction gone on re-read, user missing, anything thrown) are swallowed
and never surface in the response. -/
theorem C6_activationFailureSwallowed (hmac : String → String → String) (key cp : String)
    (payloadId now durationDays : Int) (p : PaymeParams) (s : Store) (r : PaymeResult)
    (hok : (performTransaction now p s).1 = Except.ok r) :
    (handlePaymeWebhook hmac (some key) cp (some (hmac key cp)) payloadId now durationDays
      PaymeMethod.PerformTransaction p s).1 = WebhookResponse.rpcResult payloadId r := by
  have hv := verify_ok_of_valid hmac key cp
  rcases hperf : performTransaction now p s with ⟨e, s1⟩
  rw [hperf] at hok
  simp only at hok
  subst hok
  simp [handlePaymeWebhook, hv, handleWebhook, hperf]

theorem C6_activationFailureSwallowed_witness :
    activateSubscriptionInner 100 30 (some 1)
        (performTransaction 100 ⟨"p6", 1, 0, 0, ""⟩
          { emptyStore with transactions :=
              [{ demoTxn with paymeTransactionId := some "p6", status := TxStatus.processing,
                              userId := 42 }] }).2 =
      Except.error ActivationFailure.userNotFound ∧
    (handlePaymeWebhook hmacDemo (some "secret") "payload"
        (some (hmacDemo "secret" "payload")) 9 100 30 PaymeMethod.PerformTransaction
        ⟨"p6", 1, 0, 0, ""⟩
        { emptyStore with transactions :=
            [{ demoTxn with paymeTransactionId := some "p6", status := TxStatus.processing,
                            userId := 42 }] }).1 =
      WebhookResponse.rpcResult 9 (PaymeResult.performResult 1 100 2) :=
  ⟨rfl,
   C6_activationFailureSwallowed hmacDemo "secret" "payload" 9 100 30 ⟨"p6", 1, 0, 0, ""⟩
     { emptyStore with transactions :=
         [{ demoTxn with paymeTransactionId := some "p6", status := TxStatus.processing,
                         userId := 42 }] }
     (PaymeResult.performResult 1 100 2) rfl⟩

/-! ### C1 — replaying PerformTransaction on a completed transaction -/

/-- C1 (amended): replaying `PerformTransaction` with the same external
(PayMe) transaction id against a transaction that is `completed` and already
carries its `subscriptionId` binding returns the stored result and leaves
the whole store — the transaction, the Subscription collection and every
user's entitlement snapshot — exactly as it was, creating no second
Subscription. -/
theorem C1_performReplayIdempotent (hmac : String → String → String) (key cp : String)
    (payloadId now durationDays : Int) (p : PaymeParams) (s : Store) (t : Txn)
    (hnd : (s.transactions.map Txn.tid).Nodup)
    (hfind : findTxnByPaymeId s p.paymeId = some t)
    (hc : t.status = TxStatus.completed)
    (hb : t.subscriptionId.isSome = true) :
    handlePaymeWebhook hmac (some key) cp (some (hmac key cp)) payloadId now durationDays
        PaymeMethod.PerformTransaction p s =
      (WebhookResponse.rpcResult payloadId (PaymeResult.performResult t.tid t.updatedAt 2),
        s) := by
  have hv := verify_ok_of_valid hmac key cp
  have hperf : performTransaction now p s =
      (Except.ok (PaymeResult.performResult t.tid t.updatedAt 2), s) := by
    simp [performTransaction, hfind, hc]
  have hmem := (findTxnByPaymeId_mem hfind).1
  have hfindid : findTxnById s t.tid = some t := findBy_of_mem_nodup hnd hmem
  have hact : activateSubscriptionFromTransaction now durationDays (some t.tid) s = s := by
    simp [activateSubscriptionFromTransaction, activateSubscriptionInner, hfindid, hc, hb]
  simp [handlePaymeWebhook, hv, handleWebhook, hperf, PaymeResult.transactionField, hact]

theorem C1_performReplayIdempotent_witness :
    handlePaymeWebhook hmacDemo (some "secret") "payload"
        (some (hmacDemo "secret" "payload")) 3 200 30 PaymeMethod.PerformTransaction
        ⟨"p1", 1, 0, 0, ""⟩
        { emptyStore with
            transactions :=
              [{ demoTxn with paymeTransactionId := some "p1", status := TxStatus.completed,
                              subscriptionId := some 5, updatedAt := 20 }],
            users := [demoUser] } =
      (WebhookResponse.rpcResult 3 (PaymeResult.performResult 1 20 2),
        { emptyStore with
            transactions :=
              [{ demoTxn with paymeTransactionId := some "p1", status := TxStatus.completed,
                              subscriptionId := some 5, updatedAt := 20 }],
            users := [demoUser] }) :=
  C1_performReplayIdempotent hmacDemo "secret" "payload" 3 200 30 ⟨"p1", 1, 0, 0, ""⟩ _
    { demoTxn with paymeTransactionId := some "p1", status := TxStatus.completed,
                   subscriptionId := some 5, updatedAt := 20 }
    (by decide) (by decide) (by decide) (by decide)

/-- The store of the C1 counterexample: a transaction completed and bound to
PayMe id "p1" whose activation has not happened yet (`subscriptionId`
unset — exactly the state left behind when the first activation attempt
failed after completion), with its user present. -/
def storeC1 : Store :=
  { emptyStore with
      transactions :=
        [{ demoTxn with paymeTransactionId := some "p1", status := TxStatus.completed }],
      users := [demoUser] }

/-- C1 counterexample to the claim as stated: replaying `PerformTransaction`
against this already-`completed` transaction *does* mutate stored state —
the late activation runs, creating a Subscription and binding it — so the
claim's "identical before and after the replay" fails for completed
transactions whose `subscriptionId` is still unset. -/
theorem C1_counterexample :
    (findTxnByPaymeId storeC1 "p1").map Txn.status = some TxStatus.completed ∧
    (handlePaymeWebhook hmacDemo (some "secret") "payload"
        (some (hmacDemo "secret" "payload")) 3 200 30 PaymeMethod.PerformTransaction
        ⟨"p1", 1, 0, 0, ""⟩ storeC1).2 ≠ storeC1 := by
  constructor
  · decide
  · decide

/-! ### C3 — monotonicity of transaction status transitions -/

/-- The store of the C3 counterexample: a transaction bound to PayMe id "p3"
that was cancelled. -/
def storeC3 : Store :=
  { emptyStore with
      transactions :=
        [{ demoTxn with paymeTransactionId := some "p3", status := TxStatus.cancelled,
                        errorMessage := some "Cancelled: timeout" }],
      users := [demoUser] }

/-- C3 counterexample to the claim as stated: `cancelled` is not terminal —
delivering `PerformTransaction` for the bound external id of a cancelled
transaction moves it straight to `completed`. -/
theorem C3_counterexample :
    (findTxnByPaymeId storeC3 "p3").map Txn.status = some TxStatus.cancelled ∧
    (findTxnById
        (handlePaymeWebhook hmacDemo (some "secret") "payload"
          (some (hmacDemo "secret" "payload")) 4 300 30 PaymeMethod.PerformTransaction
          ⟨"p3", 1, 0, 0, ""⟩ storeC3).2 1).map Txn.status =
      some TxStatus.completed := by
  constructor
  · decide
  · decide

/-- C3 (amended): `completed` is preserved by every webhook method except
`CreateTransaction` — `CancelTransaction` on a completed transaction is
rejected, `PerformTransaction` replays without downgrading, and the two
check methods are pure reads — so under those methods `completed` can leave
only through the administrative refund path.  The claimed terminality of
`cancelled`/`failed` is false (see the counterexample), and
`CreateTransaction` with a fresh external id can even re-bind a completed
transaction back to `processing`. -/
theorem C3_completedPreserved (hmac : String → String → String) (secretKey : Option String)
    (cp : String) (sg : Option String) (payloadId now durationDays : Int)
    (m : PaymeMethod) (p : PaymeParams) (s : Store) (i : Nat) (t : Txn)
    (hm : m ≠ PaymeMethod.CreateTransaction)
    (hnd : (s.transactions.map Txn.tid).Nodup)
    (hfind : findTxnById s i = some t)
    (hc : t.status = TxStatus.completed) :
    ∃ t', findTxnById
        (handlePaymeWebhook hmac secretKey cp sg payloadId now durationDays m p s).2 i =
      some t' ∧ t'.status = TxStatus.completed := by
  cases sg with
  | none => exact ⟨t, hfind, hc⟩
  | some sg' =>
    cases hv : verifyWebhookSignature hmac secretKey cp sg' with
    | error e =>
      refine ⟨t, ?_, hc⟩
      simpa [handlePaymeWebhook, hv] using hfind
    | ok b =>
      cases b with
      | false =>
        refine ⟨t, ?_, hc⟩
        simpa [handlePaymeWebhook, hv] using hfind
      | true =>
        cases m with
        | CheckPerformTransaction =>
          refine ⟨t, ?_, hc⟩
          rcases hd : checkPerformTransaction p s with ⟨e, s1⟩
          have hs1 : s1 = s := by
            have hsnd := checkPerformTransaction_snd p s
            rw [hd] at hsnd
            exact hsnd
          subst hs1
          cases e with
          | error msg => simpa [handlePaymeWebhook, hv, handleWebhook, hd] using hfind
          | ok r => simpa [handlePaymeWebhook, hv, handleWebhook, hd] using hfind
        | CreateTransaction => exact absurd rfl hm
        | PerformTransaction =>
          cases hfp : findTxnByPaymeId s p.paymeId with
          | none =>
            refine ⟨t, ?_, hc⟩
            simpa [handlePaymeWebhook, hv, handleWebhook, performTransaction, hfp]
              using hfind
          | some t2 =>
            by_cases hcc : t2.status = TxStatus.completed
            · have hact := activate_preserves_completed now durationDays (some t2.tid) s
                hfind hc
              rcases hact with ⟨t', ht', hct'⟩
              refine ⟨t', ?_, hct'⟩
              simpa [handlePaymeWebhook, hv, handleWebhook, performTransaction, hfp, hcc,
                PaymeResult.transactionField] using ht'
            · have hne2 : t2 ≠ t := by
                intro he
                rw [he, hc] at hcc
                exact hcc rfl
              have hti : t2.tid ≠ i :=
                tid_ne_of_other hnd hfind (findTxnByPaymeId_mem hfp).1 hne2
              have hneR : i ≠ Txn.tid { t2 with status := TxStatus.completed,
                                                 updatedAt := now } := by
                simpa using fun he => hti he.symm
              have hfind1 : findTxnById
                  (saveTxn s { t2 with status := TxStatus.completed, updatedAt := now }) i =
                  some t := by
                rw [findTxnById_saveTxn_other s _ hneR]
                exact hfind
              have hact := activate_preserves_completed now durationDays (some t2.tid)
                (saveTxn s { t2 with status := TxStatus.completed, updatedAt := now })
                hfind1 hc
              rcases hact with ⟨t', ht', hct'⟩
              refine ⟨t', ?_, hct'⟩
              simpa [handlePaymeWebhook, hv, handleWebhook, performTransaction, hfp, hcc,
                PaymeResult.transactionField] using ht'
        | CancelTransaction =>
          cases hfp : findTxnByPaymeId s p.paymeId with
          | none =>
            refine ⟨t, ?_, hc⟩
            simpa [handlePaymeWebhook, hv, handleWebhook, cancelTransaction, hfp] using hfind
          | some t2 =>
            by_cases hcc : t2.status = TxStatus.completed
            · refine ⟨t, ?_, hc⟩
              simpa [handlePaymeWebhook, hv, handleWebhook, cancelTransaction, hfp, hcc]
                using hfind
            · have hne2 : t2 ≠ t := by
                intro he
                rw [he, hc] at hcc
                exact hcc rfl
              have hti : t2.tid ≠ i :=
                tid_ne_of_other hnd hfind (findTxnByPaymeId_mem hfp).1 hne2
              refine ⟨t, ?_, hc⟩
              have hneC : i ≠ Txn.tid
                  { t2 with status := TxStatus.cancelled,
                            errorMessage := some ("Cancelled: " ++ p.reason),
                            updatedAt := now } :=
                fun he => hti he.symm
              have hpres := findTxnById_saveTxn_other s
                { t2 with status := TxStatus.cancelled,
                          errorMessage := some ("Cancelled: " ++ p.reason), updatedAt := now }
                hneC
              simp only [handlePaymeWebhook, hv, handleWebhook, cancelTransaction, hfp,
                if_neg hcc]
              simpa [hpres] using hfind
        | CheckTransaction =>
          refine ⟨t, ?_, hc⟩
          cases hfp : findTxnByPaymeId s p.paymeId with
          | none =>
            simpa [handlePaymeWebhook, hv, handleWebhook, checkTransaction, hfp] using hfind
          | some t2 =>
            simpa [handlePaymeWebhook, hv, handleWebhook, checkTransaction, hfp] using hfind

theorem C3_completedPreserved_witness :
    ∃ t', findTxnById
        (handlePaymeWebhook hmacDemo (some "secret") "payload"
          (some (hmacDemo "secret" "payload")) 8 400 30 PaymeMethod.CancelTransaction
          ⟨"p1", 1, 0, 0, "late cancel"⟩
          { emptyStore with
              transactions :=
                [{ demoTxn with paymeTransactionId := some "p1",
                                status := TxStatus.completed, subscriptionId := some 5 }],
              users := [demoUser] }).2 1 =
      some t' ∧ t'.status = TxStatus.completed :=
  C3_completedPreserved hmacDemo (some "secret") "payload"
    (some (hmacDemo "secret" "payload")) 8 400 30 PaymeMethod.CancelTransaction
    ⟨"p1", 1, 0, 0, "late cancel"⟩ _ 1
    { demoTxn with paymeTransactionId := some "p1", status := TxStatus.completed,
                   subscriptionId := some 5 }
    (by decide) (by decide) (by decide) (by decide)

/-! ### C2 — one scheduler pass over an expired active subscription -/

theorem findBy_exists_of_key_mem {α κ : Type} [DecidableEq κ] {key : α → κ} {l : List α}
    {k : κ} (h : k ∈ l.map key) : ∃ y, findBy key l k = some y ∧ key y = k := by
  induction l with
  | nil => simp at h
  | cons x xs ih =>
    by_cases hx : key x = k
    · exact ⟨x, by simp [findBy, List.find?, hx], hx⟩
    · simp only [List.map_cons, List.mem_cons] at h
      rcases h with h | h
      · exact absurd h.symm hx
      · rcases ih h with ⟨y, hy, hky⟩
        refine ⟨y, ?_, hky⟩
        simpa [findBy, List.find?, decide_eq_false hx] using hy

theorem key_nodup_mem_eq {α κ : Type} [DecidableEq κ] {key : α → κ} {l : List α} {x y : α}
    (hnd : (l.map key).Nodup) (hx : x ∈ l) (hy : y ∈ l) (hk : key x = key y) : x = y := by
  have h1 : findBy key l (key x) = some x := findBy_of_mem_nodup hnd hx
  have h2 : findBy key l (key y) = some y := findBy_of_mem_nodup hnd hy
  rw [hk, h2] at h1
  exact (Option.some.inj h1).symm

theorem foldl_invariant {α σ : Type} (f : σ → α → σ) (P : σ → Prop) (l : List α) (s : σ)
    (h0 : P s) (hstep : ∀ st a, a ∈ l → P st → P (f st a)) : P (l.foldl f s) := by
  induction l generalizing s with
  | nil => exact h0
  | cons x xs ih =>
    exact ih (f s x) (hstep s x (List.mem_cons_self x xs) h0)
      (fun st a ha hp => hstep st a (List.mem_cons_of_mem x ha) hp)

theorem findSubById_saveUser (st : Store) (u : UserDoc) (i : Nat) :
    findSubById (saveUser st u) i = findSubById st i := rfl

theorem findUserById_saveSub (st : Store) (x : Subscr) (i : Nat) :
    findUserById (saveSub st x) i = findUserById st i := rfl

theorem findSubById_expireOneGracePeriod (st : Store) (x : UserDoc) (i : Nat) :
    findSubById (expireOneGracePeriod st x) i = findSubById st i := rfl

theorem expireOneSubscription_users_map (now g : Int) (st : Store) (x : Subscr) :
    (expireOneSubscription now g st x).users.map UserDoc.uid =
      st.users.map UserDoc.uid := by
  cases h : findUserById st x.userId with
  | none =>
    simp only [expireOneSubscription, findUserById_saveSub, h]
    rfl
  | some u3 =>
    simp only [expireOneSubscription, findUserById_saveSub, h]
    exact saveBy_map_key UserDoc.uid st.users _

theorem expireOneSubscription_subs_map (now g : Int) (st : Store) (x : Subscr) :
    (expireOneSubscription now g st x).subscriptions.map Subscr.sid =
      st.subscriptions.map Subscr.sid := by
  cases h : findUserById st x.userId with
  | none =>
    simp only [expireOneSubscription, findUserById_saveSub, h]
    exact saveBy_map_key Subscr.sid st.subscriptions _
  | some u3 =>
    simp only [expireOneSubscription, findUserById_saveSub, h]
    exact saveBy_map_key Subscr.sid st.subscriptions _

/-- Processing a different subscription (different id) leaves a stored
subscription record untouched. -/
theorem expireOne_preserves_findSub (now g : Int) (st : Store) (x : Subscr) {k : Nat}
    (hk : k ≠ x.sid) :
    findSubById (expireOneSubscription now g st x) k = findSubById st k := by
  cases h : findUserById st x.userId with
  | none =>
    simp only [expireOneSubscription, findUserById_saveSub, h]
    exact findBy_saveBy_other Subscr.sid st.subscriptions _ hk
  | some u3 =>
    simp only [expireOneSubscription, findUserById_saveSub, h]
    rw [findSubById_saveUser]
    exact findBy_saveBy_other Subscr.sid st.subscriptions _ hk

/-- Processing any subscription keeps a user who is already in the grace
state of this pass in exactly that state (it either does not touch the user
or rewrites the same two fields with the same values). -/
theorem expireOne_preserves_userGrace (now g : Int) (st : Store) (x : Subscr) {k : Nat}
    (hP : ∃ u2, findUserById st k = some u2 ∧
      u2.subscriptionStatus = SubStatus.gracePeriod ∧
      u2.gracePeriodEndsAt = some (now + g * 86400000)) :
    ∃ u2, findUserById (expireOneSubscription now g st x) k = some u2 ∧
      u2.subscriptionStatus = SubStatus.gracePeriod ∧
      u2.gracePeriodEndsAt = some (now + g * 86400000) := by
  cases h : findUserById st x.userId with
  | none =>
    rcases hP with ⟨u2, hfind, hst, hend⟩
    refine ⟨u2, ?_, hst, hend⟩
    simp only [expireOneSubscription, findUserById_saveSub, h]
    exact hfind
  | some u3 =>
    have hu3key : u3.uid = x.userId := (findBy_mem h).2
    have hu3mem : u3 ∈ st.users := (findBy_mem h).1
    by_cases hxk : k = x.userId
    · refine ⟨{ u3 with subscriptionStatus := SubStatus.gracePeriod,
                        gracePeriodEndsAt := some (now + g * 86400000) }, ?_, rfl, rfl⟩
      simp only [expireOneSubscription, findUserById_saveSub, h]
      have := findBy_saveBy_same UserDoc.uid st.users
        { u3 with subscriptionStatus := SubStatus.gracePeriod,
                  gracePeriodEndsAt := some (now + g * 86400000) }
        ⟨u3, hu3mem, rfl⟩
      rw [hxk, ← hu3key]
      simpa [findUserById, saveUser, saveSub] using this
    · rcases hP with ⟨u2, hfind, hst, hend⟩
      refine ⟨u2, ?_, hst, hend⟩
      simp only [expireOneSubscription, findUserById_saveSub, h]
      have hkey : k ≠ UserDoc.uid
          { u3 with subscriptionStatus := SubStatus.gracePeriod,
                    gracePeriodEndsAt := some (now + g * 86400000) } := by
        simpa [hu3key] using hxk
      have hother := findBy_saveBy_other UserDoc.uid st.users
        { u3 with subscriptionStatus := SubStatus.gracePeriod,
                  gracePeriodEndsAt := some (now + g * 86400000) } hkey
      exact hother.trans hfind

/-- The step on the target subscription itself: it is stored back `expired`
with `gracePeriodStarted = now`, and its owner is stored in `grace_period`
ending `gracePeriodDays` days after `now`. -/
theorem expireOne_establish (now g : Int) (st : Store) (sub : Subscr)
    (hsid : sub.sid ∈ st.subscriptions.map Subscr.sid)
    (huid : sub.userId ∈ st.users.map UserDoc.uid) :
    findSubById (expireOneSubscription now g st sub) sub.sid =
      some { sub with status := SubStatus.expired, gracePeriodStarted := some now } ∧
    ∃ u2, findUserById (expireOneSubscription now g st sub) sub.userId = some u2 ∧
      u2.subscriptionStatus = SubStatus.gracePeriod ∧
      u2.gracePeriodEndsAt = some (now + g * 86400000) := by
  obtain ⟨x, hxmem, hxkey⟩ : ∃ x ∈ st.subscriptions, Subscr.sid x = sub.sid := by
    rcases List.mem_map.mp hsid with ⟨x, hx, hk⟩
    exact ⟨x, hx, hk⟩
  have hsubfind : findSubById
      (saveSub st { sub with status := SubStatus.expired, gracePeriodStarted := some now })
      sub.sid =
      some { sub with status := SubStatus.expired, gracePeriodStarted := some now } := by
    have := findBy_saveBy_same Subscr.sid st.subscriptions
      { sub with status := SubStatus.expired, gracePeriodStarted := some now } ⟨x, hxmem, hxkey⟩
    simpa [findSubById, saveSub] using this
  obtain ⟨u1, hu1, hu1key⟩ := findBy_exists_of_key_mem huid
  have hu1' : findUserById
      (saveSub st { sub with status := SubStatus.expired, gracePeriodStarted := some now })
      sub.userId = some u1 := hu1
  constructor
  · simp only [expireOneSubscription, hu1']
    rw [findSubById_saveUser]
    exact hsubfind
  · refine ⟨{ u1 with subscriptionStatus := SubStatus.gracePeriod,
                      gracePeriodEndsAt := some (now + g * 86400000) }, ?_, rfl, rfl⟩
    simp only [expireOneSubscription, hu1']
    have hmem1 : u1 ∈ st.users := (findBy_mem hu1).1
    have := findBy_saveBy_same UserDoc.uid st.users
      { u1 with subscriptionStatus := SubStatus.gracePeriod,
                gracePeriodEndsAt := some (now + g * 86400000) } ⟨u1, hmem1, rfl⟩
    rw [← hu1key]
    exact this

/-- C2 (amended): for every Subscription that is `active` with
`endDate ≤ now` at the start of a scheduler pass, one pass (`runCleanup`)
stores it back as `expired` with `gracePeriodStarted = now`, and stores its
owner's snapshot as `grace_period` with `gracePeriodEndsAt` equal to the
pass's current time `now` plus the configured `gracePeriodDays` — not the
subscription's own expiry date plus `gracePeriodDays`, which the code never
consults. -/
theorem C2_schedulerPass (now g : Int) (s : Store) (sub : Subscr) (u : UserDoc)
    (hg : 0 < g)
    (hmem : sub ∈ s.subscriptions)
    (hst : sub.status = SubStatus.active)
    (hend : sub.endDate ≤ now)
    (hndS : (s.subscriptions.map Subscr.sid).Nodup)
    (hndU : (s.users.map UserDoc.uid).Nodup)
    (hu : findUserById s sub.userId = some u) :
    findSubById (runCleanup now g s) sub.sid =
      some { sub with status := SubStatus.expired, gracePeriodStarted := some now } ∧
    ∃ u2, findUserById (runCleanup now g s) sub.userId = some u2 ∧
      u2.subscriptionStatus = SubStatus.gracePeriod ∧
      u2.gracePeriodEndsAt = some (now + g * 86400000) := by
  have hsubL : sub ∈ s.subscriptions.filter
      (fun sb => decide (sb.status = SubStatus.active) && decide (sb.endDate ≤ now)) :=
    List.mem_filter.mpr ⟨hmem, by simp [hst, hend]⟩
  obtain ⟨L1, L2, hL⟩ := List.append_of_mem hsubL
  have hndL : ((s.subscriptions.filter
      (fun sb => decide (sb.status = SubStatus.active) && decide (sb.endDate ≤ now))).map
        Subscr.sid).Nodup :=
    List.Nodup.sublist (List.Sublist.map Subscr.sid (List.filter_sublist _)) hndS
  rw [hL] at hndL
  have hnotin : ∀ x ∈ L2, x.sid ≠ sub.sid := by
    intro x hx he
    rw [List.map_append, List.map_cons] at hndL
    have hr : (Subscr.sid sub :: L2.map Subscr.sid).Nodup :=
      (List.nodup_append.mp hndL).2.1
    have : sub.sid ∉ L2.map Subscr.sid := (List.nodup_cons.mp hr).1
    exact this (he ▸ List.mem_map_of_mem Subscr.sid hx)
  have hphase1 : expireSubscriptions now g s =
      L2.foldl (expireOneSubscription now g)
        (expireOneSubscription now g (L1.foldl (expireOneSubscription now g) s) sub) := by
    simp only [expireSubscriptions]
    rw [hL, List.foldl_append, List.foldl_cons]
  have hs1u : (L1.foldl (expireOneSubscription now g) s).users.map UserDoc.uid =
      s.users.map UserDoc.uid := by
    apply foldl_invariant (expireOneSubscription now g)
      (fun st => st.users.map UserDoc.uid = s.users.map UserDoc.uid) L1 s rfl
    intro st a _ hp
    rw [expireOneSubscription_users_map]
    exact hp
  have hs1s : (L1.foldl (expireOneSubscription now g) s).subscriptions.map Subscr.sid =
      s.subscriptions.map Subscr.sid := by
    apply foldl_invariant (expireOneSubscription now g)
      (fun st => st.subscriptions.map Subscr.sid = s.subscriptions.map Subscr.sid) L1 s rfl
    intro st a _ hp
    rw [expireOneSubscription_subs_map]
    exact hp
  have hsid1 : sub.sid ∈
      (L1.foldl (expireOneSubscription now g) s).subscriptions.map Subscr.sid := by
    rw [hs1s]
    exact List.mem_map_of_mem Subscr.sid hmem
  have huid1 : sub.userId ∈
      (L1.foldl (expireOneSubscription now g) s).users.map UserDoc.uid := by
    rw [hs1u]
    have hm := findBy_mem hu
    exact hm.2 ▸ List.mem_map_of_mem UserDoc.uid hm.1
  obtain ⟨hPsub2, hPuser2⟩ :=
    expireOne_establish now g (L1.foldl (expireOneSubscription now g) s) sub hsid1 huid1
  have hum2 : (expireOneSubscription now g (L1.foldl (expireOneSubscription now g) s)
      sub).users.map UserDoc.uid = s.users.map UserDoc.uid := by
    rw [expireOneSubscription_users_map]
    exact hs1u
  have hfold := foldl_invariant (expireOneSubscription now g)
    (fun st =>
      (findSubById st sub.sid =
        some { sub with status := SubStatus.expired, gracePeriodStarted := some now }) ∧
      (∃ u2, findUserById st sub.userId = some u2 ∧
        u2.subscriptionStatus = SubStatus.gracePeriod ∧
        u2.gracePeriodEndsAt = some (now + g * 86400000)) ∧
      st.users.map UserDoc.uid = s.users.map UserDoc.uid)
    L2 (expireOneSubscription now g (L1.foldl (expireOneSubscription now g) s) sub)
    ⟨hPsub2, hPuser2, hum2⟩
    (by
      intro st a ha hp
      refine ⟨?_, ?_, ?_⟩
      · rw [expireOne_preserves_findSub now g st a (fun he => hnotin a ha he.symm)]
        exact hp.1
      · exact expireOne_preserves_userGrace now g st a hp.2.1
      · rw [expireOneSubscription_users_map]
        exact hp.2.2)
  rw [← hphase1] at hfold
  obtain ⟨hPs3, ⟨u2, hu2find, hu2st, hu2end⟩, hum3⟩ := hfold
  have hndU3 : ((expireSubscriptions now g s).users.map UserDoc.uid).Nodup :=
    hum3 ▸ hndU
  have hgd : (0 : Int) < g * 86400000 := by
    have : (0 : Int) < 86400000 := by norm_num
    exact mul_pos hg this
  have hM : ∀ x ∈ (expireSubscriptions now g s).users.filter
      (fun v => decide (v.subscriptionStatus = SubStatus.gracePeriod) &&
        optLe v.gracePeriodEndsAt now), x.uid ≠ sub.userId := by
    intro x hx he
    have hxmem := (List.mem_filter.mp hx).1
    have hq := (List.mem_filter.mp hx).2
    have hu2mem : u2 ∈ (expireSubscriptions now g s).users := (findBy_mem hu2find).1
    have hu2key : u2.uid = sub.userId := (findBy_mem hu2find).2
    have hxu : x = u2 := key_nodup_mem_eq hndU3 hxmem hu2mem (by rw [he, hu2key])
    subst hxu
    rw [hu2end] at hq
    simp only [optLe, Bool.and_eq_true, decide_eq_true_eq] at hq
    omega
  have hfinal := foldl_invariant expireOneGracePeriod
    (fun st =>
      (findSubById st sub.sid =
        some { sub with status := SubStatus.expired, gracePeriodStarted := some now }) ∧
      findUserById st sub.userId = some u2)
    ((expireSubscriptions now g s).users.filter
      (fun v => decide (v.subscriptionStatus = SubStatus.gracePeriod) &&
        optLe v.gracePeriodEndsAt now))
    (expireSubscriptions now g s)
    ⟨hPs3, hu2find⟩
    (by
      intro st a ha hp
      refine ⟨?_, ?_⟩
      · rw [findSubById_expireOneGracePeriod]
        exact hp.1
      · have hkey : sub.userId ≠ UserDoc.uid
            { a with subscriptionStatus := SubStatus.expired,
                     gracePeriodEndsAt := none } := by
          simpa using fun he => hM a ha he.symm
        have := findBy_saveBy_other UserDoc.uid st.users
          { a with subscriptionStatus := SubStatus.expired, gracePeriodEndsAt := none } hkey
        simp only [expireOneGracePeriod, findUserById, saveUser]
        exact this.trans hp.2)
  have hrun : runCleanup now g s =
      ((expireSubscriptions now g s).users.filter
        (fun v => decide (v.subscriptionStatus = SubStatus.gracePeriod) &&
          optLe v.gracePeriodEndsAt now)).foldl expireOneGracePeriod
        (expireSubscriptions now g s) := rfl
  rw [hrun]
  exact ⟨hfinal.1, u2, hfinal.2, hu2st, hu2end⟩

/-- The store of the C2 witness and counterexample: one active subscription
whose endDate (1000) is long past at the pass time, owned by user 1. -/
def storeC2 : Store :=
  { emptyStore with
      subscriptions :=
        [{ sid := 1, userId := 1, status := SubStatus.active, startDate := 0,
           endDate := 1000, autoRenew := false, lastPaymentId := none,
           gracePeriodStarted := none }],
      users := [demoUser] }

theorem C2_schedulerPass_witness :
    findSubById (runCleanup 90000000 3 storeC2) 1 =
      some { sid := 1, userId := 1, status := SubStatus.expired, startDate := 0,
             endDate := 1000, autoRenew := false, lastPaymentId := none,
             gracePeriodStarted := some 90000000 } ∧
    ∃ u2, findUserById (runCleanup 90000000 3 storeC2) 1 = some u2 ∧
      u2.subscriptionStatus = SubStatus.gracePeriod ∧
      u2.gracePeriodEndsAt = some (90000000 + 3 * 86400000) :=
  C2_schedulerPass 90000000 3 storeC2
    { sid := 1, userId := 1, status := SubStatus.active, startDate := 0, endDate := 1000,
      autoRenew := false, lastPaymentId := none, gracePeriodStarted := none }
    demoUser (by norm_num) (by decide) rfl (by norm_num) (by decide) (by decide) (by decide)

/-- C2 counterexample to the claim as stated: after one pass over a
subscription that expired at `endDate = 1000`, run at `now = 90000000` with
3 grace days, the user's `gracePeriodEndsAt` is `now + 3 days`
(349200000), which differs from `endDate + 3 days` (259201000) — the claimed
formula `expiry + gracePeriodDays` does not hold. -/
theorem C2_counterexample :
    (findUserById (runCleanup 90000000 3 storeC2) 1).map UserDoc.gracePeriodEndsAt =
      some (some (90000000 + 3 * 86400000)) ∧
    (90000000 + 3 * 86400000 : Int) ≠ 1000 + 3 * 86400000 := by
  constructor
  · decide
  · decide

end SkinTrader
